import Mathlib

/-!
Verification of the perfpy process-resource profiler.

The development shallowly embeds the repository's core
(`src/perfpy/profiler.py`, `schema.py`, `report.py`, `cli.py`).
Python floats holding cumulative CPU seconds are modelled as rationals;
psutil reads that can fail with `NoSuchProcess`/`AccessDenied` are
modelled as `Option` values supplied by an environment; the poll loop is
driven by a finite trace of iterations, each recording what the OS
reported at that poll (`proc.poll()` result, memory/CPU reads, the
wall clock, and whether sampling raised an unexpected exception).
-/

namespace Perfpy

/-- psutil pcputimes namedtuple: `(user, system, children_user, children_system)`,
seconds as rationals. -/
structure Pcputimes where
  user : ℚ
  system : ℚ
  children_user : ℚ
  children_system : ℚ
  deriving DecidableEq, Repr

/-- `_zero_cpu()` in profiler.py: `Pcputimes(0.0, 0.0, 0.0, 0.0)`. -/
def zero_cpu : Pcputimes := ⟨0, 0, 0, 0⟩

/-- `_is_better_cpu_times(a, b)`: `(a.user + a.system) > (b.user + b.system)`. -/
def is_better_cpu_times (a b : Pcputimes) : Bool :=
  decide (a.user + a.system > b.user + b.system)

/-- The user+system sum the comparison is based on. -/
def cpu_sum (c : Pcputimes) : ℚ := c.user + c.system

/-- `_timed_out(start, timeout)`: `timeout is not None and (time.time() - start) > timeout`.
The current clock reading `now` stands for `time.time()`. -/
def timed_out (start : ℚ) (timeout : Option ℚ) (now : ℚ) : Bool :=
  match timeout with
  | none => false
  | some t => decide (now - start > t)

/-- One point-in-time view of the process tree, as the psutil reads would
deliver it: `none` stands for a read failing with NoSuchProcess/AccessDenied.
`childRss`/`childCpu` list the reads on the descendants enumerated at that
moment. -/
structure SampleEnv where
  procRss : Option ℕ
  childRss : List (Option ℕ)
  procCpu : Option Pcputimes
  childCpu : List (Option Pcputimes)
  deriving DecidableEq, Repr

/-- `_sum_rss_bytes(proc, include_children)`: a suppressed failure on the
target skips the whole block (result 0); each failing child read is
suppressed individually and contributes 0. -/
def sum_rss_bytes (s : SampleEnv) (include_children : Bool) : ℕ :=
  match s.procRss with
  | none => 0
  | some r => r + (if include_children then (s.childRss.map (fun c => c.getD 0)).sum else 0)

/-- `_cpu_times(proc)`: the target's cpu_times, or zeroed values when the
read fails. Only the target process is read, never the descendants. -/
def cpu_times (s : SampleEnv) : Pcputimes :=
  s.procCpu.getD (Pcputimes.mk 0 0 0 0)

/-- Observable side effects of one run, in order. -/
inductive Event where
  | killTree
  | waitEv
  | reapEv
  deriving DecidableEq, Repr

/-- Actions `_reap(p, timeout=5.0)` performs: `p.wait(timeout)`; on
TimeoutExpired, `p.kill()` then an unbounded `p.wait()`. -/
inductive ReapAction where
  | waitBounded (t : ℚ)
  | kill
  | waitUnbounded
  deriving DecidableEq, Repr

/-- `_reap(p, timeout)` as the sequence of process-API calls it makes,
determined by whether the bounded wait completes within the grace period. -/
def reap_actions (timeout : ℚ) (wait_within_grace : Bool) : List ReapAction :=
  if wait_within_grace then [ReapAction.waitBounded timeout]
  else [ReapAction.waitBounded timeout, ReapAction.kill, ReapAction.waitUnbounded]

/-- What the OS reported at one iteration of the poll loop: the
`proc.poll()` result, the sample reads, the `time.time()` reading used by
the timeout check, and whether sampling raised an unexpected exception
(one not suppressed inside the samplers). -/
structure Iteration where
  rc : Option ℤ
  sample : SampleEnv
  now : ℚ
  raises : Bool
  deriving DecidableEq, Repr

/-- Keyword parameters of `run_and_monitor`. -/
structure MonitorParams where
  include_children : Bool
  timeout : Option ℚ
  deriving DecidableEq, Repr

/-- `profile()` calls `run_and_monitor(command_parts)` with the defaults:
`include_children=True`, `timeout=None`. -/
def default_params : MonitorParams := ⟨true, none⟩

/-- Running peaks held by the loop (`peak_rss`, `peak_cpu`). -/
structure LoopState where
  peak_rss : ℕ
  peak_cpu : Pcputimes
  deriving DecidableEq, Repr

/-- `peak_rss = 0`, `peak_cpu = _zero_cpu()` before the loop. -/
def initial_state : LoopState := ⟨0, zero_cpu⟩

/-- One iteration body of the loop: sample, then
`peak_rss = max(peak_rss, current_rss)` and the conditional `peak_cpu`
replacement. -/
def monitor_step (p : MonitorParams) (st : LoopState) (it : Iteration) : LoopState :=
  let current_rss := sum_rss_bytes it.sample p.include_children
  let current_cpu := cpu_times it.sample
  { peak_rss := max st.peak_rss current_rss
    peak_cpu := if is_better_cpu_times current_cpu st.peak_cpu then current_cpu else st.peak_cpu }

/-- How the poll loop ended. `exhausted` means the supplied trace ran out
before any exit condition fired (the run is still in progress). -/
inductive LoopExit where
  | completed (rc : ℤ)
  | timedOutExit
  | raised
  | exhausted
  deriving DecidableEq, Repr

/-- Result of the `while True` loop: final peaks, how it exited, and the
side effects it performed. -/
structure LoopRes where
  st : LoopState
  exit : LoopExit
  events : List Event
  deriving DecidableEq, Repr

/-- The `while True` loop of `run_and_monitor`: each iteration polls,
samples (possibly raising), updates peaks, breaks on an exit code, else
kills the tree and waits on timeout expiry, else sleeps and repeats. -/
def monitor_loop (p : MonitorParams) (start : ℚ) (st : LoopState) :
    List Iteration → LoopRes
  | [] => ⟨st, LoopExit.exhausted, []⟩
  | it :: rest =>
    if it.raises then ⟨st, LoopExit.raised, []⟩
    else
      let st1 := monitor_step p st it
      match it.rc with
      | some rc => ⟨st1, LoopExit.completed rc, []⟩
      | none =>
        if timed_out start p.timeout it.now then
          ⟨st1, LoopExit.timedOutExit, [Event.killTree, Event.waitEv]⟩
        else
          monitor_loop p start st1 rest

/-- Environment of one `run_and_monitor` call after the process was
spawned: whether `psutil.Process(pid)` succeeded (`wrap_ok`), the
`proc.wait()` result on the immediate-exit path, the poll-loop trace, and
`proc.returncode` as observed after a timeout kill. -/
structure RunEnv where
  wrap_ok : Bool
  early_rc : ℤ
  iters : List Iteration
  final_returncode : ℤ
  deriving DecidableEq, Repr

/-- Value of one `run_and_monitor` call: the returned triple
`(proc.returncode, peak_rss, peak_cpu)`, a propagated sampling exception,
or still running (trace exhausted). -/
inductive RunOutcome where
  | ok (rc : ℤ) (peak_rss : ℕ) (peak_cpu : Pcputimes)
  | raised
  | running
  deriving DecidableEq, Repr

/-- Outcome plus the ordered side effects of the run. -/
structure RunRes where
  outcome : RunOutcome
  events : List Event
  deriving DecidableEq, Repr

/-- `run_and_monitor(command, interval, include_children, timeout)` after a
successful spawn. On `wrap_ok = false` (`psutil.Process` raised
NoSuchProcess) it returns `(proc.wait(), 0, _zero_cpu())` without entering
the loop. Otherwise the loop runs inside `try: ... finally: _reap(proc)`,
so `_reap` runs on every loop exit, exceptions included; a trace that is
exhausted has not exited yet, so its `finally` has not run. -/
def run_and_monitor (p : MonitorParams) (start : ℚ) (env : RunEnv) : RunRes :=
  if env.wrap_ok then
    let r := monitor_loop p start initial_state env.iters
    match r.exit with
    | LoopExit.completed rc =>
        ⟨RunOutcome.ok rc r.st.peak_rss r.st.peak_cpu, r.events ++ [Event.reapEv]⟩
    | LoopExit.timedOutExit =>
        ⟨RunOutcome.ok env.final_returncode r.st.peak_rss r.st.peak_cpu,
          r.events ++ [Event.reapEv]⟩
    | LoopExit.raised => ⟨RunOutcome.raised, r.events ++ [Event.reapEv]⟩
    | LoopExit.exhausted => ⟨RunOutcome.running, r.events⟩
  else
    ⟨RunOutcome.ok env.early_rc 0 zero_cpu, [Event.waitEv]⟩

/-! ### schema.py -/

/-- `Command` in schema.py: `name` and `command`. -/
structure Command where
  name : String
  command : String
  deriving DecidableEq, Repr

/-- `Profile` in schema.py: exactly the fields the pydantic model declares,
in declaration order. The model declares no `return_code` field. -/
structure Profile where
  name : String
  command : String
  bytes_recv : ℤ
  bytes_sent : ℤ
  user_time : ℚ
  cpu_time : ℚ
  total_time : ℤ
  max_memory_usage : ℚ
  deriving DecidableEq, Repr

/-- `Profile.model_fields.keys()`: the declared field names in order. -/
def profile_model_fields : List String :=
  ["name", "command", "bytes_recv", "bytes_sent", "user_time", "cpu_time",
   "total_time", "max_memory_usage"]

/-- `Profile(**data)` as called by `profile()` in profiler.py, which also
passes `return_code=...`. The pydantic model declares no such field and its
default config ignores extra keyword arguments, so `return_code` is
dropped. `Profile.__init__` then multiplies `max_memory_usage` by 1024 when
`sys.platform == "darwin"`. -/
def mkProfile (platform : String) (name command : String)
    (bytes_recv bytes_sent : ℤ) (user_time cpu_time : ℚ) (total_time : ℤ)
    (max_memory_usage : ℚ) (return_code : ℤ) : Profile :=
  { name := name
    command := command
    bytes_recv := bytes_recv
    bytes_sent := bytes_sent
    user_time := user_time
    cpu_time := cpu_time
    total_time := total_time
    max_memory_usage :=
      if platform = "darwin" then max_memory_usage * 1024 else max_memory_usage }

/-! ### report.py -/

/-- One CSV cell before stringification. -/
inductive Field where
  | str (s : String)
  | int (i : ℤ)
  | rat (q : ℚ)
  deriving DecidableEq, Repr

/-- `profile.model_dump().values()`: the field values in declaration
order. -/
def model_dump (p : Profile) : List Field :=
  [Field.str p.name, Field.str p.command, Field.int p.bytes_recv,
   Field.int p.bytes_sent, Field.rat p.user_time, Field.rat p.cpu_time,
   Field.int p.total_time, Field.rat p.max_memory_usage]

/-- `report(profiles, filename)`: one header row of
`Profile.model_fields.keys()`, then one row of `model_dump` values per
profile. -/
def report (profiles : List Profile) : List (List Field) :=
  (profile_model_fields.map Field.str) :: profiles.map model_dump

/-! ### shlex.split

Interface model of Python's `shlex.split` as `profile()` uses it:
whitespace-delimited tokens with single/double shell quoting; an unclosed
quote raises `ValueError("No closing quotation")`, modelled as `none`. -/

/-- Tokenizer worker: `q` is the open quote character (if inside a quote),
`cur` the current token's characters in reverse, `started` whether a token
is in progress, `acc` the finished tokens in reverse. -/
def shlex_split_aux : Option Char → List Char → Bool → List Char →
    List String → Option (List String)
  | some _, [], _, _, _ => none
  | none, [], started, cur, acc =>
      some (if started then (String.mk cur.reverse :: acc).reverse else acc.reverse)
  | none, c :: cs, started, cur, acc =>
      if c = ' ' then
        if started then shlex_split_aux none cs false [] (String.mk cur.reverse :: acc)
        else shlex_split_aux none cs false [] acc
      else if c = '\'' ∨ c = '"' then shlex_split_aux (some c) cs true cur acc
      else shlex_split_aux none cs true (c :: cur) acc
  | some q, c :: cs, _, cur, acc =>
      if c = q then shlex_split_aux none cs true cur acc
      else shlex_split_aux (some q) cs true (c :: cur) acc

/-- `shlex.split(command)`: `some tokens`, or `none` when a quote is left
unbalanced (ValueError). -/
def shlex_split (s : String) : Option (List String) :=
  shlex_split_aux none s.data false [] []

/-! ### profiler.profile and cli.main -/

/-- Errors a single `profile(command)` call can raise to its caller. -/
inductive PErr where
  | commandParse
  | monitorRaised
  | incomplete
  deriving DecidableEq, Repr

/-- Environment of one `profile(command)` call: `sys.platform`, the
network counter and monotonic-clock snapshots taken before and after the
run, and the monitor run's environment. -/
structure ProfileEnv where
  platform : String
  net_recv_before : ℤ
  net_sent_before : ℤ
  net_recv_after : ℤ
  net_sent_after : ℤ
  time_before : ℤ
  time_after : ℤ
  start : ℚ
  run : RunEnv
  deriving DecidableEq, Repr

/-- `profile(command)` in profiler.py: snapshot counters and clock, split
the command with `shlex.split` (a ValueError propagates), run
`run_and_monitor(command_parts)` with its default keyword arguments,
snapshot again, and build the `Profile`. `round(x, ndigits=2)` on the
integer nanosecond delta is the identity. Paired with the run's ordered
side effects. -/
def profile (cmd : Command) (env : ProfileEnv) :
    Except PErr Profile × List Event :=
  match shlex_split cmd.command with
  | none => (Except.error PErr.commandParse, [])
  | some _parts =>
    let r := run_and_monitor default_params env.start env.run
    match r.outcome with
    | RunOutcome.ok rc peak_rss peak_cpu =>
        (Except.ok (mkProfile env.platform cmd.name cmd.command
            (env.net_recv_after - env.net_recv_before)
            (env.net_sent_after - env.net_sent_before)
            peak_cpu.user peak_cpu.system
            (env.time_after - env.time_before)
            (peak_rss : ℚ) rc),
          r.events)
    | RunOutcome.raised => (Except.error PErr.monitorRaised, r.events)
    | RunOutcome.running => (Except.error PErr.incomplete, r.events)

/-- `True` exactly when the call returned a value rather than raising. -/
def profile_ok (cmd : Command) (env : ProfileEnv) : Bool :=
  match (profile cmd env).1 with
  | Except.ok _ => true
  | Except.error _ => false

/-- The list comprehension in cli.py `main`:
`[profile(command) for command in profile_commands.commands]` — commands
run left to right and the first exception aborts the whole comprehension
(there is no per-command handler). -/
def main_profiles : List (Command × ProfileEnv) → Except PErr (List Profile)
  | [] => Except.ok []
  | (c, e) :: rest =>
    match (profile c e).1 with
    | Except.error err => Except.error err
    | Except.ok p =>
      match main_profiles rest with
      | Except.error err => Except.error err
      | Except.ok ps => Except.ok (p :: ps)

/-! ### Derived views of one run, used to state the invariants -/

/-- The value one loop iteration's sample contributes
(`current_rss = _sum_rss_bytes(ps_proc, include_children)`). -/
def sample_rss (p : MonitorParams) (it : Iteration) : ℕ :=
  sum_rss_bytes it.sample p.include_children

/-- The sampled value of a successfully taken sample: `none` when the
memory read on the target process failed (that sample contributed the
fallback 0). -/
def success_rss (p : MonitorParams) (it : Iteration) : Option ℕ :=
  match it.sample.procRss with
  | none => none
  | some _ => some (sample_rss p it)

/-- The prefix of the trace the loop actually consumes: up to and
including the iteration on which it breaks (exit code observed or timeout
expired); a raising iteration consumes no sample. -/
def consumed (p : MonitorParams) (start : ℚ) : List Iteration → List Iteration
  | [] => []
  | it :: rest =>
    if it.raises then []
    else
      match it.rc with
      | some _ => [it]
      | none =>
        if timed_out start p.timeout it.now then [it]
        else it :: consumed p start rest

/-- The successive loop states along a list of iterations, starting from
`st` (the state before each iteration, plus the final state). -/
def peaks_along (p : MonitorParams) (st : LoopState) : List Iteration → List LoopState
  | [] => [st]
  | it :: rest => st :: peaks_along p (monitor_step p st it) rest

/-- Erase the descendant CPU readings from a sample (the code never reads
them: `_cpu_times` queries only the target process). -/
def scrub_child_cpu_sample (s : SampleEnv) : SampleEnv :=
  { s with childCpu := [] }

/-- Erase the descendant CPU readings from one iteration's sample. -/
def scrub_child_cpu_iter (it : Iteration) : Iteration :=
  { it with sample := scrub_child_cpu_sample it.sample }

/-- Erase the descendant CPU readings from every iteration of a run
environment. -/
def scrub_child_cpu (env : RunEnv) : RunEnv :=
  { env with iters := env.iters.map scrub_child_cpu_iter }

/-! ### Concrete inputs used by counterexamples and witnesses -/

/-- A run whose single poll finds the process alive past a 1-second
timeout: the kill branch fires and `proc.returncode` after the kill is
-9. -/
def env_timeout : RunEnv :=
  ⟨true, 0, [⟨none, ⟨some 5, [], some ⟨1, 1, 0, 0⟩, []⟩, 10, false⟩], -9⟩

/-- A run whose single poll sees a normal exit with code -9 and the same
sample values as `env_timeout`. -/
def env_normal : RunEnv :=
  ⟨true, 0, [⟨some (-9), ⟨some 5, [], some ⟨1, 1, 0, 0⟩, []⟩, 10, false⟩], 0⟩

/-- A spawned process that exited before `psutil.Process(pid)` could wrap
it (`wrap_ok = false`): `run_and_monitor` takes the early-return path. -/
def env_instant_exit : RunEnv :=
  ⟨false, 0, [], 0⟩

/-- A run whose single sampling iteration raises an unexpected
exception. -/
def env_raising : RunEnv :=
  ⟨true, 0, [⟨none, ⟨none, [], none, []⟩, 0, true⟩], 0⟩

/-- A benign one-poll run: the process exits at the first poll with the
given code, having one readable sample. -/
def env_quick (rc : ℤ) : RunEnv :=
  ⟨true, 0, [⟨some rc, ⟨some 1, [], some ⟨0, 0, 0, 0⟩, []⟩, 0, false⟩], 0⟩

/-- A `profile()` environment around `env_quick rc`: linux platform, zero
network and clock deltas. -/
def penv_quick (rc : ℤ) : ProfileEnv :=
  ⟨"linux", 0, 0, 0, 0, 0, 0, 0, env_quick rc⟩

/-- A command whose string has an unbalanced quote: `shlex.split` raises
`ValueError`. -/
def cmd_bad : Command := ⟨"bad", "echo 'oops"⟩

/-- A well-formed command. -/
def cmd_good : Command := ⟨"good", "echo ok"⟩

/-! ## Helper lemmas -/

/-- The head of `peaks_along` is always the starting state. -/
lemma peaks_along_head (p : MonitorParams) (st : LoopState) (its : List Iteration) :
    (peaks_along p st its).head? = some st := by
  cases its <;> rfl

/-- A pointwise-monotone state measure is monotone along `peaks_along`. -/
lemma chain_le_map_peaks_along {γ : Type} [Preorder γ] (p : MonitorParams)
    (g : LoopState → γ) (hm : ∀ st it, g st ≤ g (monitor_step p st it)) :
    ∀ (its : List Iteration) (st : LoopState),
      List.Chain' (fun x y => x ≤ y) ((peaks_along p st its).map g)
  | [], _ => by simp [peaks_along]
  | it :: rest, st => by
    have ih := chain_le_map_peaks_along p g hm rest (monitor_step p st it)
    rw [peaks_along, List.map_cons]
    refine List.chain'_cons'.mpr ⟨?_, ih⟩
    intro y hy
    rw [List.head?_map, peaks_along_head] at hy
    simp only [Option.map_some', Option.mem_def, Option.some.injEq] at hy
    subst hy
    exact hm st it

/-- Each iteration can only raise `peak_rss`. -/
lemma step_peak_rss_le (p : MonitorParams) (st : LoopState) (it : Iteration) :
    st.peak_rss ≤ (monitor_step p st it).peak_rss :=
  le_max_left _ _

/-- Each iteration can only raise the peak user+system CPU sum. -/
lemma step_cpu_sum_le (p : MonitorParams) (st : LoopState) (it : Iteration) :
    cpu_sum st.peak_cpu ≤ cpu_sum (monitor_step p st it).peak_cpu := by
  simp only [monitor_step]
  split
  · rename_i h
    simp only [is_better_cpu_times, gt_iff_lt, decide_eq_true_eq, cpu_sum] at h ⊢
    exact le_of_lt h
  · exact le_refl _

/-- The loop's final state is the fold of the step over the consumed
prefix of the trace. -/
lemma monitor_loop_st_eq (p : MonitorParams) (start : ℚ) :
    ∀ (its : List Iteration) (st : LoopState),
      (monitor_loop p start st its).st
        = List.foldl (monitor_step p) st (consumed p start its)
  | [], st => rfl
  | it :: rest, st => by
    rw [monitor_loop, consumed]
    split
    · rfl
    · cases it.rc with
      | some rc => rfl
      | none =>
        by_cases ht : timed_out start p.timeout it.now = true
        · simp [ht]
        · simp only [Bool.not_eq_true] at ht
          simp [ht, monitor_loop_st_eq p start rest (monitor_step p st it)]

/-- A sample whose target memory read failed contributes 0. -/
lemma sample_rss_of_fail (p : MonitorParams) (it : Iteration)
    (h : it.sample.procRss = none) : sample_rss p it = 0 := by
  simp [sample_rss, sum_rss_bytes, h]

/-- Folding `max` over per-iteration sample values equals folding `max`
over the values of the successfully taken samples only. -/
lemma foldl_max_sample_rss (p : MonitorParams) :
    ∀ (l : List Iteration) (n : ℕ),
      List.foldl (fun m it => max m (sample_rss p it)) n l
        = List.foldl max n (l.filterMap (success_rss p))
  | [], _ => rfl
  | it :: rest, n => by
    rw [List.foldl_cons]
    cases h : it.sample.procRss with
    | none =>
      rw [sample_rss_of_fail p it h]
      simp only [List.filterMap_cons, success_rss, h]
      rw [foldl_max_sample_rss p rest (max n 0)]
      simp
    | some r =>
      simp only [List.filterMap_cons, success_rss, h, List.foldl_cons]
      exact foldl_max_sample_rss p rest (max n (sample_rss p it))

/-- `peak_rss` of the fold is the `max`-fold of the contributed values. -/
lemma foldl_step_peak_rss (p : MonitorParams) :
    ∀ (l : List Iteration) (st : LoopState),
      (List.foldl (monitor_step p) st l).peak_rss
        = List.foldl (fun m it => max m (sample_rss p it)) st.peak_rss l
  | [], _ => rfl
  | it :: rest, st => foldl_step_peak_rss p rest (monitor_step p st it)

/-- The kill branch is unreachable when no timeout is configured. -/
lemma killTree_not_mem_monitor_loop (ic : Bool) (start : ℚ) :
    ∀ (its : List Iteration) (st : LoopState),
      Event.killTree ∉ (monitor_loop ⟨ic, none⟩ start st its).events
  | [], _ => by simp [monitor_loop]
  | it :: rest, st => by
    rw [monitor_loop]
    split
    · simp
    · cases it.rc with
      | some rc => simp
      | none =>
        have ht : timed_out start (⟨ic, none⟩ : MonitorParams).timeout it.now = false := rfl
        simp only [ht, Bool.false_eq_true, if_false]
        exact killTree_not_mem_monitor_loop ic start rest (monitor_step ⟨ic, none⟩ st it)

/-- The step never reads the descendant CPU values of a sample. -/
lemma monitor_step_scrub (p : MonitorParams) (st : LoopState) (rc : Option ℤ)
    (sample : SampleEnv) (now : ℚ) (raises : Bool) :
    monitor_step p st ⟨rc, scrub_child_cpu_sample sample, now, raises⟩
      = monitor_step p st ⟨rc, sample, now, raises⟩ := by
  cases sample with
  | mk pr crs pc cc =>
    cases pr <;> simp [monitor_step, sum_rss_bytes, cpu_times, scrub_child_cpu_sample]

/-- The loop never reads the descendant CPU values of any sample. -/
lemma monitor_loop_scrub (p : MonitorParams) (start : ℚ) :
    ∀ (its : List Iteration) (st : LoopState),
      monitor_loop p start st (its.map scrub_child_cpu_iter)
        = monitor_loop p start st its
  | [], _ => rfl
  | it :: rest, st => by
    obtain ⟨rc, sample, now, raises⟩ := it
    show monitor_loop p start st
        (⟨rc, scrub_child_cpu_sample sample, now, raises⟩ :: rest.map scrub_child_cpu_iter) = _
    rw [monitor_loop, monitor_loop]
    cases raises with
    | true => rfl
    | false =>
      simp only [Bool.false_eq_true, if_false, monitor_step_scrub]
      cases rc with
      | some r => rfl
      | none =>
        by_cases ht : timed_out start p.timeout now = true
        · simp [ht]
        · simp only [Bool.not_eq_true] at ht
          simp only [ht, Bool.false_eq_true, if_false]
          exact monitor_loop_scrub p start rest _

/-- `run_and_monitor` never reads the descendant CPU values. -/
lemma run_and_monitor_scrub (p : MonitorParams) (start : ℚ) (env : RunEnv) :
    run_and_monitor p start (scrub_child_cpu env) = run_and_monitor p start env := by
  cases env with
  | mk w e its f =>
    simp only [scrub_child_cpu, run_and_monitor, monitor_loop_scrub]

/-- A loop that exited through the timeout branch performed the tree kill
and the blocking wait. -/
lemma timeout_events_mem (p : MonitorParams) (start : ℚ) :
    ∀ (its : List Iteration) (st : LoopState),
      (monitor_loop p start st its).exit = LoopExit.timedOutExit →
      Event.killTree ∈ (monitor_loop p start st its).events
        ∧ Event.waitEv ∈ (monitor_loop p start st its).events
  | [], st => by
    intro h
    exact absurd h (by simp [monitor_loop])
  | it :: rest, st => by
    rw [monitor_loop]
    split
    · intro h
      exact absurd h (by simp)
    · cases it.rc with
      | some rc =>
        intro h
        exact absurd h (by simp)
      | none =>
        by_cases ht : timed_out start p.timeout it.now = true
        · simp [ht]
        · simp only [Bool.not_eq_true] at ht
          simp only [ht, Bool.false_eq_true, if_false]
          exact timeout_events_mem p start rest _

/-- When the wrapped loop actually exits, the `finally` block runs and
`_reap` is performed. -/
lemma reap_mem_run (p : MonitorParams) (start : ℚ) (env : RunEnv)
    (hw : env.wrap_ok = true)
    (hx : (monitor_loop p start initial_state env.iters).exit ≠ LoopExit.exhausted) :
    Event.reapEv ∈ (run_and_monitor p start env).events := by
  cases heq : (monitor_loop p start initial_state env.iters).exit with
  | completed rc => simp [run_and_monitor, hw, heq]
  | timedOutExit => simp [run_and_monitor, hw, heq]
  | raised => simp [run_and_monitor, hw, heq]
  | exhausted => exact absurd heq hx

/-! ## Claims -/

/-- C1: the claim says every `Profile` produced by the aggregator contains
a `returnCode` field set to the Monitor loop's exit code. The code
contradicts it (and its own test, which asserts a `return_code` CSV
column): the pydantic `Profile` model declares no `return_code` field, so
the `return_code=` keyword passed by `profile()` is silently dropped —
two runs whose Monitor exit codes differ produce identical `Profile`
records, and the field list carries no `return_code`. -/
theorem c1_return_code_dropped :
    "return_code" ∉ profile_model_fields
    ∧ mkProfile "linux" "n" "cmd" 1 2 3 4 5 6 0
        = mkProfile "linux" "n" "cmd" 1 2 3 4 5 6 7
    ∧ (profile cmd_good (penv_quick 0)).1 = (profile cmd_good (penv_quick 7)).1 := by
  refine ⟨by decide, rfl, rfl⟩

/-- C2: the claim says the report's header row and data rows carry the
fields in the order `name, command, bytesRecv, bytesSent, userTime,
cpuTime, totalTimeNanos, maxMemoryBytes, returnCode`. The writer does emit
one header row of `Profile.model_fields` and one `model_dump` row per
record in declaration order, but — because the model declares no
`return_code` field — both rows have only the first eight columns and no
`returnCode`, contradicting the repository's own CSV test. -/
theorem c2_report_missing_return_code :
    report [mkProfile "linux" "n" "c" 1 2 3 4 5 6 0]
        = [profile_model_fields.map Field.str,
           model_dump (mkProfile "linux" "n" "c" 1 2 3 4 5 6 0)]
    ∧ profile_model_fields
        = ["name", "command", "bytes_recv", "bytes_sent", "user_time", "cpu_time",
           "total_time", "max_memory_usage"]
    ∧ "return_code" ∉ profile_model_fields
    ∧ model_dump (mkProfile "linux" "n" "c" 1 2 3 4 5 6 0)
        = [Field.str "n", Field.str "c", Field.int 1, Field.int 2, Field.rat 3,
           Field.rat 4, Field.int 5, Field.rat 6] := by
  refine ⟨rfl, rfl, by decide, rfl⟩

/-- C4: the claim says constructing a `Profile` leaves the supplied peak
memory value unchanged on every platform, with no platform-dependent
scaling inside the core. `Profile.__init__` contradicts it: under
`sys.platform == "darwin"` it multiplies `max_memory_usage` by 1024 (its
own comment claims a conversion *to kilobytes*, which a multiplication by
1024 is not), while on other platforms the bytes value is stored
unchanged. -/
theorem c4_darwin_scaling :
    (mkProfile "darwin" "n" "c" 0 0 0 0 0 100 0).max_memory_usage = 102400
    ∧ (mkProfile "linux" "n" "c" 0 0 0 0 0 100 0).max_memory_usage = 100 := by
  constructor
  · show (100 : ℚ) * 1024 = 102400
    norm_num
  · rfl

/-- C7: at every observed sample, the running peak CPU value is replaced
by the sample's CPU times exactly when the sample's user+system sum is
strictly greater than the current peak's; otherwise the current peak is
kept; hence the peak's user+system sum never decreases along the sequence
of loop states of any run. Confirmed against `_is_better_cpu_times` and
the loop's update. -/
theorem c7_peak_cpu_strict_replacement (p : MonitorParams) (st : LoopState)
    (it : Iteration) (its : List Iteration) :
    ((monitor_step p st it).peak_cpu
        = if cpu_sum (cpu_times it.sample) > cpu_sum st.peak_cpu
          then cpu_times it.sample else st.peak_cpu)
    ∧ cpu_sum st.peak_cpu ≤ cpu_sum (monitor_step p st it).peak_cpu
    ∧ List.Chain' (fun x y => x ≤ y)
        ((peaks_along p initial_state its).map (fun s => cpu_sum s.peak_cpu)) := by
  refine ⟨?_, step_cpu_sum_le p st it, ?_⟩
  · simp only [monitor_step, is_better_cpu_times, cpu_sum]
    split
    · rename_i h
      rw [if_pos (by simpa using h)]
    · rename_i h
      rw [if_neg (by simpa using h)]
  · exact chain_le_map_peaks_along p (fun s => cpu_sum s.peak_cpu)
      (fun st it => step_cpu_sum_le p st it) its initial_state

/-- C8: sampling never raises for vanished/access-denied processes: a
failed memory read on the target makes the whole sum 0, a failed read on
a descendant contributes 0 to the sum, a failed CPU read falls back to
all-zero CPU times, and descendant CPU readings are never consulted —
erasing them from every sample of a run leaves the run's result and
side effects unchanged. Confirmed against `_sum_rss_bytes` and
`_cpu_times` (totality is by construction: both are functions of the
reads, with `none` modelling the suppressed exceptions). -/
theorem c8_sampling_total (pr : Option ℕ) (r : ℕ) (cs : List (Option ℕ))
    (pc : Option Pcputimes) (cc : List (Option Pcputimes)) (ic : Bool)
    (p : MonitorParams) (start : ℚ) (env : RunEnv) :
    sum_rss_bytes ⟨none, cs, pc, cc⟩ ic = 0
    ∧ sum_rss_bytes ⟨some r, cs, pc, cc⟩ true
        = r + (cs.map (fun c => c.getD 0)).sum
    ∧ cpu_times ⟨pr, cs, none, cc⟩ = zero_cpu
    ∧ run_and_monitor p start (scrub_child_cpu env) = run_and_monitor p start env :=
  ⟨rfl, rfl, rfl, run_and_monitor_scrub p start env⟩

/-- C10: `profile()` invokes `run_and_monitor(command_parts)` with the
default `timeout=None`, for which `_timed_out` is identically false, so no
run started through `profile()` ever reaches the tree-kill branch; the
timeout machinery fires only for direct `run_and_monitor` callers that
pass a timeout (witnessed by the final conjunct). Confirmed. -/
theorem c10_profile_never_kills (cmd : Command) (env : ProfileEnv) (start now : ℚ) :
    timed_out start default_params.timeout now = false
    ∧ Event.killTree ∉ (profile cmd env).2
    ∧ Event.killTree ∈ (run_and_monitor ⟨true, some 1⟩ 0
        ⟨true, 0, [⟨none, ⟨none, [], none, []⟩, 10, false⟩], 0⟩).events := by
  refine ⟨rfl, ?_, ?_⟩
  · rw [profile]
    have hrun : Event.killTree ∉ (run_and_monitor default_params env.start env.run).events := by
      have hloop : Event.killTree
          ∉ (monitor_loop default_params env.start initial_state env.run.iters).events :=
        killTree_not_mem_monitor_loop true env.start env.run.iters initial_state
      by_cases hw : env.run.wrap_ok
      · rw [run_and_monitor, if_pos hw]
        cases heq : (monitor_loop default_params env.start initial_state env.run.iters).exit with
        | completed rc => simp [heq, List.mem_append, hloop]
        | timedOutExit => simp [heq, List.mem_append, hloop]
        | raised => simp [heq, List.mem_append, hloop]
        | exhausted => simp [heq, hloop]
      · rw [run_and_monitor, if_neg hw]
        simp
    cases shlex_split cmd.command with
    | none => simp
    | some parts =>
      cases houtcome : (run_and_monitor default_params env.start env.run).outcome with
      | ok rc prss pcpu => simpa [houtcome] using hrun
      | raised => simpa [houtcome] using hrun
      | running => simpa [houtcome] using hrun
  · have ht : timed_out 0 (some 1) 10 = true := by
      simp only [timed_out, decide_eq_true_eq]
      norm_num
    simp [run_and_monitor, monitor_loop, ht]

/-- C5: across one run the peak memory value is non-decreasing over the
samples taken; at the end it equals the maximum of the successfully taken
samples' resident-memory values, and is zero when no sample succeeded
(the `max`-fold over ℕ starting at 0 is exactly that maximum). Confirmed
against the `peak_rss = max(peak_rss, current_rss)` update. -/
theorem c5_peak_memory (p : MonitorParams) (start : ℚ) (its : List Iteration) :
    List.Chain' (fun a b => a ≤ b)
        ((peaks_along p initial_state (consumed p start its)).map LoopState.peak_rss)
    ∧ (monitor_loop p start initial_state its).st.peak_rss
        = ((consumed p start its).filterMap (success_rss p)).foldl max 0
    ∧ ((∀ it ∈ consumed p start its, it.sample.procRss = none) →
        (monitor_loop p start initial_state its).st.peak_rss = 0) := by
  have h2 : (monitor_loop p start initial_state its).st.peak_rss
      = ((consumed p start its).filterMap (success_rss p)).foldl max 0 := by
    rw [monitor_loop_st_eq, foldl_step_peak_rss, foldl_max_sample_rss]
    rfl
  refine ⟨?_, h2, ?_⟩
  · exact chain_le_map_peaks_along p LoopState.peak_rss
      (fun st it => step_peak_rss_le p st it) _ initial_state
  · intro hall
    rw [h2]
    have hnil : (consumed p start its).filterMap (success_rss p) = [] := by
      rw [List.filterMap_eq_nil_iff]
      intro it hit
      simp [success_rss, hall it hit]
    rw [hnil]
    rfl

/-- Witness for C5 at a run whose only consumed sample failed its memory
read: the final peak is zero. -/
theorem c5_peak_memory_witness :
    (monitor_loop default_params 0 initial_state
        [⟨some 0, ⟨none, [], none, []⟩, 0, false⟩]).st.peak_rss = 0 := by
  refine (c5_peak_memory default_params 0 _).2.2 ?_
  intro it hit
  simp [consumed] at hit
  subst hit
  rfl

/-- C3, as stated, is false: `main` runs
`[profile(command) for command in ...]` with no per-command handler, so
the `ValueError` that `shlex.split` raises on `cmd_bad`'s unbalanced
quote aborts the whole comprehension — the batch returns that error and
the following command, which alone would profile fine
(`profile_ok cmd_good`), produces nothing. -/
theorem c3_counterexample :
    main_profiles [(cmd_bad, penv_quick 0), (cmd_good, penv_quick 0)]
        = Except.error PErr.commandParse
    ∧ profile_ok cmd_good (penv_quick 0) = true :=
  ⟨rfl, rfl⟩

/-- C3 amended: a parse or launch failure of one command aborts the whole
batch — the error propagates out of the per-command loop, so no
subsequent command in the batch is profiled: after any prefix of
succeeding commands, a failing command makes the whole batch evaluate to
that command's error. -/
theorem c3_abort_amended (pre : List (Command × ProfileEnv)) (c : Command)
    (e : ProfileEnv) (post : List (Command × ProfileEnv)) (err : PErr)
    (hpre : ∀ x ∈ pre, profile_ok x.1 x.2 = true)
    (hc : (profile c e).1 = Except.error err) :
    main_profiles (pre ++ (c, e) :: post) = Except.error err := by
  induction pre with
  | nil =>
    rw [List.nil_append, main_profiles, hc]
  | cons x xs ih =>
    obtain ⟨xc, xe⟩ := x
    have hx : profile_ok xc xe = true := hpre (xc, xe) (List.mem_cons_self _ _)
    have hrest : ∀ y ∈ xs, profile_ok y.1 y.2 = true :=
      fun y hy => hpre y (List.mem_cons_of_mem _ hy)
    rw [List.cons_append, main_profiles]
    cases hp : (profile xc xe).1 with
    | error e2 =>
      rw [profile_ok, hp] at hx
      simp at hx
    | ok q =>
      simp only [hp, ih hrest]

/-- Witness for C3 amended: a good command, then the unbalanced-quote
command, then another good command — the batch returns the parse error. -/
theorem c3_abort_amended_witness :
    main_profiles ([(cmd_good, penv_quick 0)]
        ++ (cmd_bad, penv_quick 0) :: [(cmd_good, penv_quick 0)])
      = Except.error PErr.commandParse :=
  c3_abort_amended [(cmd_good, penv_quick 0)] cmd_bad (penv_quick 0)
    [(cmd_good, penv_quick 0)] PErr.commandParse
    (by
      intro x hx
      simp only [List.mem_singleton] at hx
      subst hx
      rfl)
    rfl

/-- C6, as stated, is false in one respect: `run_and_monitor` returns the
bare triple `(return_code, peak_rss, peak_cpu)` with no `timedOut` flag.
A run that expired its timeout (tree killed, then waited) and a run whose
process exited normally with the same code produce *identical* results,
so the result cannot contain `timedOut=true`. -/
theorem c6_counterexample :
    (run_and_monitor ⟨true, some 1⟩ 0 env_timeout).outcome
        = (run_and_monitor ⟨true, none⟩ 0 env_normal).outcome
    ∧ Event.killTree ∈ (run_and_monitor ⟨true, some 1⟩ 0 env_timeout).events
    ∧ Event.killTree ∉ (run_and_monitor ⟨true, none⟩ 0 env_normal).events := by
  have ht : timed_out 0 (some 1) 10 = true := by
    simp only [timed_out, decide_eq_true_eq]
    norm_num
  have hb : is_better_cpu_times ⟨1, 1, 0, 0⟩ ⟨0, 0, 0, 0⟩ = true := by
    simp only [is_better_cpu_times, gt_iff_lt, decide_eq_true_eq]
    norm_num
  refine ⟨?_, ?_, ?_⟩
  · simp [run_and_monitor, monitor_loop, monitor_step, sum_rss_bytes, cpu_times,
      initial_state, zero_cpu, env_timeout, env_normal, ht, hb]
  · simp [run_and_monitor, monitor_loop, env_timeout, ht]
  · simp [run_and_monitor, monitor_loop, env_normal]

/-- C6 amended: when a configured timeout expires, the Monitor loop kills
the process tree, blocks on `proc.wait()`, and returns normally with the
triple `(proc.returncode, peak_rss, peak_cpu)` — a timeout is never
raised as an error — but the returned triple carries no `timedOut`
flag. -/
theorem c6_timeout_amended (p : MonitorParams) (start : ℚ) (env : RunEnv)
    (hw : env.wrap_ok = true)
    (hx : (monitor_loop p start initial_state env.iters).exit = LoopExit.timedOutExit) :
    (run_and_monitor p start env).outcome
        = RunOutcome.ok env.final_returncode
            (monitor_loop p start initial_state env.iters).st.peak_rss
            (monitor_loop p start initial_state env.iters).st.peak_cpu
    ∧ Event.killTree ∈ (run_and_monitor p start env).events
    ∧ Event.waitEv ∈ (run_and_monitor p start env).events
    ∧ (run_and_monitor p start env).outcome ≠ RunOutcome.raised := by
  have hmem := timeout_events_mem p start env.iters initial_state hx
  rcases hL : monitor_loop p start initial_state env.iters with ⟨st, ex, evs⟩
  rw [hL] at hx hmem
  have hex : ex = LoopExit.timedOutExit := hx
  subst hex
  have hm1 : Event.killTree ∈ evs := hmem.1
  have hm2 : Event.waitEv ∈ evs := hmem.2
  rw [run_and_monitor, if_pos hw, hL]
  exact ⟨rfl, List.mem_append_left _ hm1, List.mem_append_left _ hm2,
    fun h => RunOutcome.noConfusion h⟩

/-- Witness for C6 amended at the concrete timed-out run `env_timeout`. -/
theorem c6_timeout_amended_witness :
    (run_and_monitor ⟨true, some 1⟩ 0 env_timeout).outcome
        = RunOutcome.ok env_timeout.final_returncode
            (monitor_loop ⟨true, some 1⟩ 0 initial_state env_timeout.iters).st.peak_rss
            (monitor_loop ⟨true, some 1⟩ 0 initial_state env_timeout.iters).st.peak_cpu
    ∧ Event.killTree ∈ (run_and_monitor ⟨true, some 1⟩ 0 env_timeout).events
    ∧ Event.waitEv ∈ (run_and_monitor ⟨true, some 1⟩ 0 env_timeout).events
    ∧ (run_and_monitor ⟨true, some 1⟩ 0 env_timeout).outcome ≠ RunOutcome.raised :=
  c6_timeout_amended ⟨true, some 1⟩ 0 env_timeout rfl (by
    have ht : timed_out 0 (some 1) 10 = true := by
      simp only [timed_out, decide_eq_true_eq]
      norm_num
    simp [monitor_loop, env_timeout, ht])

/-- C9, as stated, is false on one exit path: when the spawned process
exits before `psutil.Process(pid)` wraps it, `run_and_monitor` returns
from its pre-loop early path with a plain `proc.wait()` and the Reaper
(`_reap`, with its grace period and force-kill) never runs. -/
theorem c9_counterexample :
    (run_and_monitor default_params 0 env_instant_exit).outcome
        = RunOutcome.ok 0 0 zero_cpu
    ∧ Event.reapEv ∉ (run_and_monitor default_params 0 env_instant_exit).events := by
  constructor
  · rfl
  · simp [run_and_monitor, env_instant_exit]

/-- C9 amended: once the loop is entered, the `try/finally` guarantees
`_reap` runs on every exit of the loop — completion, timeout, and an
exception raised during sampling alike; `_reap` blocks on a wait bounded
by the grace period and, if that wait times out, force-kills and performs
an unbounded final wait. On the pre-loop instant-exit path the Reaper
does not run; a plain blocking `proc.wait()` reaps the process there
instead. -/
theorem c9_reap_amended (p : MonitorParams) (start g : ℚ) (env : RunEnv)
    (hw : env.wrap_ok = true)
    (hx : (monitor_loop p start initial_state env.iters).exit ≠ LoopExit.exhausted) :
    Event.reapEv ∈ (run_and_monitor p start env).events
    ∧ reap_actions g true = [ReapAction.waitBounded g]
    ∧ reap_actions g false
        = [ReapAction.waitBounded g, ReapAction.kill, ReapAction.waitUnbounded]
    ∧ (run_and_monitor p start { env with wrap_ok := false }).events
        = [Event.waitEv] := by
  refine ⟨reap_mem_run p start env hw hx, rfl, rfl, ?_⟩
  rw [run_and_monitor]
  simp

/-- Witness for C9 amended at a run whose only iteration raises during
sampling: the reap still runs. -/
theorem c9_reap_amended_witness :
    Event.reapEv ∈ (run_and_monitor default_params 0 env_raising).events
    ∧ reap_actions 5 true = [ReapAction.waitBounded 5]
    ∧ reap_actions 5 false
        = [ReapAction.waitBounded 5, ReapAction.kill, ReapAction.waitUnbounded]
    ∧ (run_and_monitor default_params 0
        { env_raising with wrap_ok := false }).events = [Event.waitEv] :=
  c9_reap_amended default_params 0 5 env_raising rfl
    (by simp [monitor_loop, env_raising])

end Perfpy
